import Mathlib

/-!
Shallow embedding of the visualization-and-projection core of the
data_analysis_app repository (files core/plots.py, core/preprocessing.py,
core/dim_reduction.py, core/facade.py), together with theorems settling the
frozen claims about it.

A pandas DataFrame is modelled as a list of column names plus a list of rows,
each row a list of cells.  A cell is either a null (NaN/None), a rational
number (floats are modelled exactly by rationals), or a string.  Pandas
elementwise equality treats null as unequal to everything including itself
(NaN semantics); pandas unique/nunique/dropna instead treat all nulls as one
value.  Both notions are modelled separately below.
-/

set_option maxHeartbeats 1000000

/-- A single cell of a pandas DataFrame: null (NaN/None), a number, or a string. -/
inductive Cell where
  | null : Cell
  | num : ℚ → Cell
  | str : String → Cell
deriving DecidableEq, Repr

/-- Pandas elementwise equality (the semantics of the == operator on Series):
null compares unequal to everything, including itself. -/
def cellEq : Cell → Cell → Bool
  | Cell.null, _ => false
  | _, Cell.null => false
  | a, b => a = b

/-- Truthiness of an optional-string keyword argument, as Python evaluates it:
None and the empty string are falsy. -/
def truthy : Option String → Bool
  | none => false
  | some s => s ≠ ""

/-- The result of Python str() on a cell value, used for trace names. -/
def Cell.pyStr : Cell → String
  | Cell.null => "nan"
  | Cell.num q => toString q
  | Cell.str s => s

/-- Whether a cell is null. -/
def Cell.isNull : Cell → Bool
  | Cell.null => true
  | _ => false

/-- Whether a cell is a number. -/
def Cell.isNum : Cell → Bool
  | Cell.num _ => true
  | _ => false

/-- A pandas DataFrame: ordered column names and rows of cells. -/
structure DF where
  cols : List String
  rows : List (List Cell)
deriving DecidableEq, Repr

/-- Index of a column name in the frame's column list. -/
def DF.colIdx (df : DF) (c : String) : Nat := df.cols.indexOf c

/-- The cell of row r in column c of the frame. -/
def DF.cellAt (df : DF) (r : List Cell) (c : String) : Cell :=
  r.getD (df.colIdx c) Cell.null

/-- Column access data[c]: the list of cells of column c, in row order. -/
def DF.col (df : DF) (c : String) : List Cell :=
  df.rows.map (fun r => df.cellAt r c)

/-- Helper for uniqueList: scans the list keeping the values not seen before. -/
def uniqueAux (seen : List Cell) : List Cell → List Cell
  | [] => []
  | x :: xs => if x ∈ seen then uniqueAux seen xs else x :: uniqueAux (x :: seen) xs

/-- Pandas Series.unique: the distinct values in first-seen order (nulls are
collapsed to a single value, and are included). -/
def uniqueList (l : List Cell) : List Cell := uniqueAux [] l

/-- Pandas Series.nunique: the number of distinct non-null values. -/
def nunique (l : List Cell) : Nat :=
  (uniqueList (l.filter (fun c => ¬ c.isNull))).length

/-- The plotly qualitative palette px.colors.qualitative.Set1 (9 colors). -/
def Set1 : List String :=
  ["rgb(228,26,28)", "rgb(55,126,184)", "rgb(77,175,74)", "rgb(152,78,163)",
   "rgb(255,127,0)", "rgb(255,255,51)", "rgb(166,86,40)", "rgb(247,129,191)",
   "rgb(153,153,153)"]

/-- A plotly trace, restricted to the attributes this application sets. -/
structure Trace where
  kind : String
  x : List Cell
  y : List Cell
  z : List Cell
  mode : Option String
  markerSymbol : Option String
  markerColor : Option String
  lineColor : Option String
  lineWidth : Option ℚ
  name : Option String
  nbinsx : Option Nat
  colorscale : Option String
  boxmean : Option String
deriving DecidableEq, Repr

/-- A trace with no attribute set; concrete traces update its fields. -/
def Trace.empty : Trace :=
  ⟨"", [], [], [], none, none, none, none, none, none, none, none, none⟩

/-- A plotly Figure: its traces plus the layout metadata this application sets. -/
structure Figure where
  traces : List Trace
  title : Option String
  xaxisTitle : Option String
  yaxisTitle : Option String
deriving DecidableEq, Repr

/-- The empty figure produced by plotly's Figure() constructor. -/
def emptyFigure : Figure := ⟨[], none, none, none⟩

/-- One iteration of the category loop in ScatterPlotStrategy.create_plot:
the trace for the idx-th distinct category value, built from the rows whose
category cell compares equal (pandas ==) to that value. -/
def scatterCatTrace (data : DF) (x_column y_column marker_symbol cc : String)
    (idx : Nat) (category : Cell) : Trace :=
  let rows := data.rows.filter (fun r => cellEq (data.cellAt r cc) category)
  { Trace.empty with
      kind := "scattergl"
      x := rows.map (fun r => data.cellAt r x_column)
      y := rows.map (fun r => data.cellAt r y_column)
      mode := some "markers"
      markerSymbol := some marker_symbol
      markerColor := some (Set1.getD idx "")
      name := some category.pyStr }

/-- ScatterPlotStrategy.create_plot (core/plots.py).  With a truthy
categorical_column it takes the distinct values of that column in first-seen
order, raises if there are more categories than palette colors, and otherwise
appends one trace per category; with a falsy categorical_column it appends a
single red-marker trace.  Layout title and axis labels are set in both cases. -/
def scatterCreatePlot (fig : Figure) (data : DF) (title x_column y_column : String)
    (categorical_column : Option String) (marker_symbol : String) :
    Except String Figure :=
  if truthy categorical_column then
    let cc := categorical_column.getD ""
    let categories := uniqueList (data.col cc)
    if Set1.length < categories.length then
      Except.error ("Not enough colors in the selected color scale for "
        ++ toString categories.length ++ " categories.")
    else
      Except.ok
        { traces := fig.traces ++ categories.enum.map
            (fun p => scatterCatTrace data x_column y_column marker_symbol cc p.1 p.2)
          title := some title
          xaxisTitle := some x_column
          yaxisTitle := some y_column }
  else
    Except.ok
      { traces := fig.traces ++
          [{ Trace.empty with
              kind := "scattergl"
              x := data.col x_column
              y := data.col y_column
              mode := some "markers"
              markerSymbol := some marker_symbol
              markerColor := some "red" }]
        title := some title
        xaxisTitle := some x_column
        yaxisTitle := some y_column }

theorem mem_uniqueAux (l : List Cell) :
    ∀ (seen : List Cell) (a : Cell), a ∈ uniqueAux seen l ↔ a ∈ l ∧ a ∉ seen := by
  induction l with
  | nil => intro seen a; simp [uniqueAux]
  | cons x xs ih =>
    intro seen a
    by_cases hx : x ∈ seen
    · simp only [uniqueAux, if_pos hx, ih, List.mem_cons]
      constructor
      · rintro ⟨h1, h2⟩; exact ⟨Or.inr h1, h2⟩
      · rintro ⟨h1 | h1, h2⟩
        · exact absurd (h1 ▸ hx) h2
        · exact ⟨h1, h2⟩
    · simp only [uniqueAux, if_neg hx, List.mem_cons, ih]
      constructor
      · rintro (h | ⟨h1, h2⟩)
        · exact ⟨Or.inl h, h ▸ hx⟩
        · exact ⟨Or.inr h1, fun hs => h2 (Or.inr hs)⟩
      · rintro ⟨h1 | h1, h2⟩
        · exact Or.inl h1
        · by_cases hax : a = x
          · exact Or.inl hax
          · exact Or.inr ⟨h1, by simp [hax, h2]⟩

/-- Every distinct value of the input appears in uniqueList and conversely. -/
theorem mem_uniqueList (l : List Cell) (a : Cell) : a ∈ uniqueList l ↔ a ∈ l := by
  simp [uniqueList, mem_uniqueAux]

theorem uniqueAux_nodup (l : List Cell) : ∀ seen : List Cell, (uniqueAux seen l).Nodup := by
  induction l with
  | nil => intro seen; simp [uniqueAux]
  | cons x xs ih =>
    intro seen
    by_cases hx : x ∈ seen
    · simpa [uniqueAux, if_pos hx] using ih seen
    · simp only [uniqueAux, if_neg hx]
      refine List.nodup_cons.2 ⟨?_, ih (x :: seen)⟩
      intro hmem
      exact ((mem_uniqueAux _ _ _).1 hmem).2 (List.mem_cons_self x seen)

/-- uniqueList contains no duplicates. -/
theorem uniqueList_nodup (l : List Cell) : (uniqueList l).Nodup :=
  uniqueAux_nodup l []

theorem uniqueAux_sublist (l : List Cell) :
    ∀ seen : List Cell, List.Sublist (uniqueAux seen l) l := by
  induction l with
  | nil => intro seen; simp [uniqueAux]
  | cons x xs ih =>
    intro seen
    by_cases hx : x ∈ seen
    · simpa [uniqueAux, if_pos hx] using (ih seen).cons x
    · simpa [uniqueAux, if_neg hx] using (ih (x :: seen)).cons₂ x

/-- uniqueList is a sublist of the input: distinct values in first-seen order. -/
theorem uniqueList_sublist (l : List Cell) : List.Sublist (uniqueList l) l :=
  uniqueAux_sublist l []

instance {ε α : Type} [DecidableEq ε] [DecidableEq α] : DecidableEq (Except ε α)
  | Except.ok a, Except.ok b => decidable_of_iff (a = b) (by simp)
  | Except.ok _, Except.error _ => isFalse (by simp)
  | Except.error _, Except.ok _ => isFalse (by simp)
  | Except.error d, Except.error e => decidable_of_iff (d = e) (by simp)

/-- A concrete dataset after the spec's scenario (carat values scaled to
integers so that witnesses kernel-evaluate): price [300, 400, 600],
cut [Ideal, Good, Ideal]. -/
def dfSample : DF :=
  { cols := ["carat", "price", "cut"]
    rows := [[Cell.num 20, Cell.num 300, Cell.str "Ideal"],
             [Cell.num 30, Cell.num 400, Cell.str "Good"],
             [Cell.num 50, Cell.num 600, Cell.str "Ideal"]] }

/-- C1: with a non-empty categorical_column, the Scatter renderer adds exactly
one trace per distinct value of that column (distinct values taken in
first-seen order: uniqueList is duplicate-free, a sublist of the column, and
has the same members), each trace built from exactly the rows whose category
cell equals that value, colored from the fixed Set1 palette; if the distinct
count exceeds the palette size it fails with the capacity error and no figure
is produced. -/
theorem scatter_categorical_traces (fig : Figure) (data : DF)
    (title x y ms cc : String) (hcc : cc ≠ "") :
    ((uniqueList (data.col cc)).Nodup ∧
      List.Sublist (uniqueList (data.col cc)) (data.col cc) ∧
      (∀ v, v ∈ uniqueList (data.col cc) ↔ v ∈ data.col cc)) ∧
    ((uniqueList (data.col cc)).length ≤ Set1.length →
      scatterCreatePlot fig data title x y (some cc) ms =
        Except.ok
          { traces := fig.traces ++ (uniqueList (data.col cc)).enum.map
              (fun p => scatterCatTrace data x y ms cc p.1 p.2)
            title := some title
            xaxisTitle := some x
            yaxisTitle := some y } ∧
      (∀ f, scatterCreatePlot fig data title x y (some cc) ms = Except.ok f →
        f.traces.length = fig.traces.length + (uniqueList (data.col cc)).length) ∧
      (∀ i, i < (uniqueList (data.col cc)).length → Set1.getD i "" ∈ Set1) ∧
      (∀ i cat, (scatterCatTrace data x y ms cc i cat).x =
          (data.rows.filter (fun r => cellEq (data.cellAt r cc) cat)).map
            (fun r => data.cellAt r x) ∧
        (scatterCatTrace data x y ms cc i cat).markerColor = some (Set1.getD i ""))) ∧
    (Set1.length < (uniqueList (data.col cc)).length →
      scatterCreatePlot fig data title x y (some cc) ms =
        Except.error ("Not enough colors in the selected color scale for "
          ++ toString (uniqueList (data.col cc)).length ++ " categories.")) := by
  have htr : truthy (some cc) = true := by simp [truthy, hcc]
  refine ⟨⟨uniqueList_nodup _, uniqueList_sublist _, fun v => mem_uniqueList _ v⟩, ?_, ?_⟩
  · intro hle
    have heq : scatterCreatePlot fig data title x y (some cc) ms =
        Except.ok
          { traces := fig.traces ++ (uniqueList (data.col cc)).enum.map
              (fun p => scatterCatTrace data x y ms cc p.1 p.2)
            title := some title
            xaxisTitle := some x
            yaxisTitle := some y } := by
      simp only [scatterCreatePlot, htr, if_true, Option.getD_some]
      rw [if_neg (Nat.not_lt.2 hle)]
    refine ⟨heq, ?_, ?_, ?_⟩
    · intro f hf
      rw [heq] at hf
      cases hf
      simp [List.length_append, List.length_map, List.enum_length]
    · intro i hi
      have hlt : i < Set1.length := Nat.lt_of_lt_of_le hi hle
      rw [List.getD_eq_getElem Set1 "" hlt]
      exact List.getElem_mem hlt
    · intro i cat
      exact ⟨rfl, rfl⟩
  · intro hgt
    simp only [scatterCreatePlot, htr, if_true, Option.getD_some]
    rw [if_pos hgt]

/-- Witness for C1, on the spec's concrete scenario: categories come out in
first-seen order Ideal, Good, yielding two traces. -/
theorem scatter_categorical_traces_witness :
    scatterCreatePlot emptyFigure dfSample "t" "carat" "price" (some "cut") "circle" =
      Except.ok
        { traces := (uniqueList (dfSample.col "cut")).enum.map
            (fun p => scatterCatTrace dfSample "carat" "price" "circle" "cut" p.1 p.2)
          title := some "t"
          xaxisTitle := some "carat"
          yaxisTitle := some "price" } := by
  have h := ((scatter_categorical_traces emptyFigure dfSample "t" "carat" "price" "circle"
    "cut" (by decide)).2.1 (by decide)).1
  simpa using h

/-- C10: with a falsy categorical_column (None or the empty string) the
Scatter renderer unconditionally succeeds, appending exactly one trace with
fixed marker color red; the palette capacity check is never reached. -/
theorem scatter_uncategorized_single_trace (fig : Figure) (data : DF)
    (title x y ms : String) (cc : Option String) (hcc : truthy cc = false) :
    scatterCreatePlot fig data title x y cc ms =
      Except.ok
        { traces := fig.traces ++
            [{ Trace.empty with
                kind := "scattergl"
                x := data.col x
                y := data.col y
                mode := some "markers"
                markerSymbol := some ms
                markerColor := some "red" }]
          title := some title
          xaxisTitle := some x
          yaxisTitle := some y } ∧
    (∀ f, scatterCreatePlot fig data title x y cc ms = Except.ok f →
      f.traces.length = fig.traces.length + 1) := by
  have heq : scatterCreatePlot fig data title x y cc ms =
      Except.ok
        { traces := fig.traces ++
            [{ Trace.empty with
                kind := "scattergl"
                x := data.col x
                y := data.col y
                mode := some "markers"
                markerSymbol := some ms
                markerColor := some "red" }]
          title := some title
          xaxisTitle := some x
          yaxisTitle := some y } := by
    simp only [scatterCreatePlot, hcc]
    rfl
  refine ⟨heq, ?_⟩
  intro f hf
  rw [heq] at hf
  cases hf
  simp

/-- Witness for C10 at categorical_column = None on the sample dataset. -/
theorem scatter_uncategorized_single_trace_witness :
    scatterCreatePlot emptyFigure dfSample "t" "carat" "price" none "circle" =
      Except.ok
        { traces := [{ Trace.empty with
            kind := "scattergl"
            x := dfSample.col "carat"
            y := dfSample.col "price"
            mode := some "markers"
            markerSymbol := some "circle"
            markerColor := some "red" }]
          title := some "t"
          xaxisTitle := some "carat"
          yaxisTitle := some "price" } := by
  have h := (scatter_uncategorized_single_trace emptyFigure dfSample "t" "carat" "price"
    "circle" none (by decide)).1
  simpa using h

/-- LinePlotStrategy.create_plot (core/plots.py): one lines-mode trace in row
order, styled by line_color and line_width; sets title and both axis labels. -/
def lineCreatePlot (fig : Figure) (data : DF) (title x_column y_column : String)
    (line_color : String) (line_width : ℚ) : Figure :=
  { traces := fig.traces ++
      [{ Trace.empty with
          kind := "scatter"
          x := data.col x_column
          y := data.col y_column
          mode := some "lines"
          lineColor := some line_color
          lineWidth := some line_width }]
    title := some title
    xaxisTitle := some x_column
    yaxisTitle := some y_column }

/-- HistogramStrategy.create_plot (core/plots.py): one histogram trace over
x_column with nbinsx bins; sets title and the x axis label only. -/
def histogramCreatePlot (fig : Figure) (data : DF) (title x_column : String)
    (bins : Nat) (bar_color : String) : Figure :=
  { traces := fig.traces ++
      [{ Trace.empty with
          kind := "histogram"
          x := data.col x_column
          nbinsx := some bins
          markerColor := some bar_color }]
    title := some title
    xaxisTitle := some x_column
    yaxisTitle := fig.yaxisTitle }

/-- BoxPlotStrategy.create_plot (core/plots.py): one box trace over x_column
with mean/sd annotation; sets title and the y axis label only. -/
def boxCreatePlot (fig : Figure) (data : DF) (title x_column : String)
    (box_color : String) : Figure :=
  { traces := fig.traces ++
      [{ Trace.empty with
          kind := "box"
          y := data.col x_column
          markerColor := some box_color
          boxmean := some "sd" }]
    title := some title
    xaxisTitle := fig.xaxisTitle
    yaxisTitle := some x_column }

/-- HeatmapStrategy.create_plot (core/plots.py): raises when any of x_column,
y_column, z_column is falsy; silently returns the figure unchanged when either
axis column has more than 30 distinct (non-null) values; otherwise appends one
heatmap trace and sets the layout. -/
def heatmapCreatePlot (fig : Figure) (data : DF) (title : String)
    (x_column y_column z_column : Option String) (colorscale : String) :
    Except String Figure :=
  if truthy x_column && truthy y_column && truthy z_column then
    let xc := x_column.getD ""
    let yc := y_column.getD ""
    let zc := z_column.getD ""
    if 30 < nunique (data.col xc) || 30 < nunique (data.col yc) then
      Except.ok fig
    else
      Except.ok
        { traces := fig.traces ++
            [{ Trace.empty with
                kind := "heatmap"
                x := data.col xc
                y := data.col yc
                z := data.col zc
                colorscale := some colorscale }]
          title := some title
          xaxisTitle := some xc
          yaxisTitle := some yc }
  else
    Except.error "Heatmap requires x_column, y_column, and z_column to be specified."

/-- C2: with all three columns supplied, the Heatmap renderer returns the input
figure completely unchanged (no trace, no layout change, no error) whenever
either axis column has more than 30 distinct values, and appends exactly one
heatmap trace when both have at most 30. -/
theorem heatmap_cardinality_guard (fig : Figure) (data : DF) (title : String)
    (xc yc zc : String) (colorscale : String)
    (hx : xc ≠ "") (hy : yc ≠ "") (hz : zc ≠ "") :
    (30 < nunique (data.col xc) ∨ 30 < nunique (data.col yc) →
      heatmapCreatePlot fig data title (some xc) (some yc) (some zc) colorscale =
        Except.ok fig) ∧
    (nunique (data.col xc) ≤ 30 → nunique (data.col yc) ≤ 30 →
      heatmapCreatePlot fig data title (some xc) (some yc) (some zc) colorscale =
        Except.ok
          { traces := fig.traces ++
              [{ Trace.empty with
                  kind := "heatmap"
                  x := data.col xc
                  y := data.col yc
                  z := data.col zc
                  colorscale := some colorscale }]
            title := some title
            xaxisTitle := some xc
            yaxisTitle := some yc } ∧
      (∀ f, heatmapCreatePlot fig data title (some xc) (some yc) (some zc) colorscale =
          Except.ok f → f.traces.length = fig.traces.length + 1)) := by
  have htr : (truthy (some xc) && truthy (some yc) && truthy (some zc)) = true := by
    simp [truthy, hx, hy, hz]
  constructor
  · intro hgt
    simp only [heatmapCreatePlot, htr, if_true, Option.getD_some]
    rw [if_pos]
    simpa using hgt
  · intro hlex hley
    have heq : heatmapCreatePlot fig data title (some xc) (some yc) (some zc) colorscale =
        Except.ok
          { traces := fig.traces ++
              [{ Trace.empty with
                  kind := "heatmap"
                  x := data.col xc
                  y := data.col yc
                  z := data.col zc
                  colorscale := some colorscale }]
            title := some title
            xaxisTitle := some xc
            yaxisTitle := some yc } := by
      simp only [heatmapCreatePlot, htr, if_true, Option.getD_some]
      rw [if_neg]
      simp only [Bool.or_eq_true, decide_eq_true_eq, not_or, not_lt]
      exact ⟨hlex, hley⟩
    refine ⟨heq, ?_⟩
    intro f hf
    rw [heq] at hf
    cases hf
    simp

/-- A dataset whose first column has 31 distinct values. -/
def df31 : DF :=
  { cols := ["a", "b", "c"]
    rows := (List.range 31).map (fun i => [Cell.num i, Cell.num 0, Cell.num 1]) }

/-- Witness for C2: on a 31-distinct-value axis column the heatmap renderer
hands back the input figure unchanged. -/
theorem heatmap_cardinality_guard_witness :
    heatmapCreatePlot emptyFigure df31 "t" (some "a") (some "b") (some "c") "Viridis" =
      Except.ok emptyFigure := by
  exact (heatmap_cardinality_guard emptyFigure df31 "t" "a" "b" "c" "Viridis"
    (by decide) (by decide) (by decide)).1 (Or.inl (by decide))

/-- The five chart strategies PlotContext._get_strategy can construct. -/
inductive Strategy where
  | line | scatter | histogram | heatmap | boxplot
deriving DecidableEq, Repr

/-- The keyword arguments accepted by the strategies, with their Python
defaults in PlotParams.default; absent optional columns are none. -/
structure PlotParams where
  x_column : Option String
  y_column : Option String
  z_column : Option String
  categorical_column : Option String
  marker_symbol : String
  line_color : String
  line_width : ℚ
  bins : Nat
  bar_color : String
  colorscale : String
  box_color : String
deriving DecidableEq, Repr

/-- The default keyword-argument values of the strategy create_plot methods. -/
def PlotParams.default : PlotParams :=
  ⟨none, none, none, none, "circle", "blue", 2, 30, "green", "Viridis", "orange"⟩

/-- Dynamic dispatch strategy.create_plot(fig, data, title, **kwargs).  A
required column argument left unset is Python's TypeError on the call. -/
def createPlotDispatch (s : Strategy) (fig : Figure) (data : DF) (title : String)
    (p : PlotParams) : Except String Figure :=
  match s with
  | Strategy.line =>
    match p.x_column, p.y_column with
    | some x, some y => Except.ok (lineCreatePlot fig data title x y p.line_color p.line_width)
    | _, _ => Except.error "TypeError: missing required argument"
  | Strategy.scatter =>
    match p.x_column, p.y_column with
    | some x, some y => scatterCreatePlot fig data title x y p.categorical_column p.marker_symbol
    | _, _ => Except.error "TypeError: missing required argument"
  | Strategy.histogram =>
    match p.x_column with
    | some x => Except.ok (histogramCreatePlot fig data title x p.bins p.bar_color)
    | none => Except.error "TypeError: missing required argument"
  | Strategy.heatmap =>
    heatmapCreatePlot fig data title p.x_column p.y_column p.z_column p.colorscale
  | Strategy.boxplot =>
    match p.x_column with
    | some x => Except.ok (boxCreatePlot fig data title x p.box_color)
    | none => Except.error "TypeError: missing required argument"

/-- The mutable state of a PlotContext: the active strategy (None allowed, the
facade constructs PlotContext(None)) and the held figure (absent before the
first update_plot call). -/
structure PlotContextState where
  strategy : Option Strategy
  fig : Option Figure
deriving DecidableEq, Repr

/-- PlotContext._get_strategy (core/plots.py): pure name-to-strategy lookup,
raising on an unrecognized name. -/
def getStrategy (name : String) : Except String Strategy :=
  if name = "line" then Except.ok Strategy.line
  else if name = "scatter" then Except.ok Strategy.scatter
  else if name = "histogram" then Except.ok Strategy.histogram
  else if name = "heatmap" then Except.ok Strategy.heatmap
  else if name = "boxplot" then Except.ok Strategy.boxplot
  else Except.error ("Unknown strategy: " ++ name)

/-- PlotContext.set_strategy: assigns the looked-up strategy; when the lookup
raises, the assignment never happens and the state is unchanged. -/
def PlotContextState.setStrategy (st : PlotContextState) (name : String) :
    Except String Unit × PlotContextState :=
  match getStrategy name with
  | Except.error e => (Except.error e, st)
  | Except.ok s => (Except.ok (), { st with strategy := some s })

/-- PlotContext.update_plot: first resets self.fig to a fresh empty Figure(),
then delegates to the active strategy's create_plot on that empty figure; on
an exception inside create_plot the already-reset empty figure is kept. -/
def PlotContextState.updatePlot (st : PlotContextState) (data : DF) (title : String)
    (p : PlotParams) : Except String Unit × PlotContextState :=
  match st.strategy with
  | none =>
    (Except.error "AttributeError: NoneType object has no attribute create_plot",
     { st with fig := some emptyFigure })
  | some s =>
    match createPlotDispatch s emptyFigure data title p with
    | Except.error e => (Except.error e, { st with fig := some emptyFigure })
    | Except.ok f => (Except.ok (), { st with fig := some f })

/-- DataAnalysisFacade.create_plot (core/facade.py): ensures a context exists,
sets the strategy by name, then updates the plot from the preprocessed data. -/
def facadeCreatePlot (ctx : Option PlotContextState) (data : DF)
    (plot_type title : String) (p : PlotParams) :
    Except String Unit × PlotContextState :=
  let st := ctx.getD { strategy := none, fig := none }
  match st.setStrategy plot_type with
  | (Except.error e, st1) => (Except.error e, st1)
  | (Except.ok _, st1) =>
    match st1.updatePlot data title p with
    | (Except.error e, st2) => (Except.error e, st2)
    | (Except.ok _, st2) => (Except.ok (), st2)

/-- C6: an unrecognized chart name makes the strategy lookup fail with the
Unknown strategy error, and the facade call then leaves the context state
(both the active strategy and the held figure) exactly as it was. -/
theorem unknown_strategy_no_mutation (name : String)
    (h : name ∉ ["line", "scatter", "histogram", "heatmap", "boxplot"]) :
    getStrategy name = Except.error ("Unknown strategy: " ++ name) ∧
    (∀ st : PlotContextState,
      st.setStrategy name = (Except.error ("Unknown strategy: " ++ name), st)) ∧
    (∀ (ctx : PlotContextState) (data : DF) (title : String) (p : PlotParams),
      facadeCreatePlot (some ctx) data name title p =
        (Except.error ("Unknown strategy: " ++ name), ctx)) := by
  simp only [List.mem_cons, List.not_mem_nil, or_false, not_or] at h
  obtain ⟨h1, h2, h3, h4, h5⟩ := h
  have hg : getStrategy name = Except.error ("Unknown strategy: " ++ name) := by
    simp [getStrategy, h1, h2, h3, h4, h5]
  refine ⟨hg, ?_, ?_⟩
  · intro st
    simp [PlotContextState.setStrategy, hg]
  · intro ctx data title p
    simp [facadeCreatePlot, PlotContextState.setStrategy, hg]

/-- Witness for C6 at the unknown chart kind pie. -/
theorem unknown_strategy_no_mutation_witness :
    facadeCreatePlot (some { strategy := some Strategy.line, fig := some emptyFigure })
        dfSample "pie" "t" PlotParams.default =
      (Except.error "Unknown strategy: pie",
       { strategy := some Strategy.line, fig := some emptyFigure }) := by
  exact (unknown_strategy_no_mutation "pie" (by decide)).2.2
    { strategy := some Strategy.line, fig := some emptyFigure } dfSample "t" PlotParams.default

/-- C8: update_plot always renders from a fresh empty figure: its outcome is
independent of whatever figure the context held before, on success the stored
figure is exactly what the active strategy produces from the empty figure, and
every strategy only appends traces to the figure it is given — hence the
resulting figure holds exactly the traces of this one call. -/
theorem update_plot_fresh_figure (s : Strategy) (data : DF) (title : String)
    (p : PlotParams) :
    (∀ f₁ f₂ : Option Figure,
      PlotContextState.updatePlot ⟨some s, f₁⟩ data title p =
        PlotContextState.updatePlot ⟨some s, f₂⟩ data title p) ∧
    (∀ (f₀ : Option Figure) (f : Figure),
      createPlotDispatch s emptyFigure data title p = Except.ok f →
        (PlotContextState.updatePlot ⟨some s, f₀⟩ data title p).2.fig = some f) ∧
    (∀ (fig : Figure) (f : Figure),
      createPlotDispatch s fig data title p = Except.ok f →
        ∃ ts, f.traces = fig.traces ++ ts) := by
  refine ⟨?_, ?_, ?_⟩
  · intro f₁ f₂
    simp only [PlotContextState.updatePlot]
  · intro f₀ f hok
    simp only [PlotContextState.updatePlot, hok]
  · intro fig f hok
    cases s with
    | line =>
      cases hx : p.x_column with
      | none => simp [createPlotDispatch, hx] at hok
      | some x =>
        cases hy : p.y_column with
        | none => simp [createPlotDispatch, hx, hy] at hok
        | some y =>
          simp only [createPlotDispatch, hx, hy, Except.ok.injEq] at hok
          subst hok
          exact ⟨_, rfl⟩
    | scatter =>
      cases hx : p.x_column with
      | none => simp [createPlotDispatch, hx] at hok
      | some x =>
        cases hy : p.y_column with
        | none => simp [createPlotDispatch, hx, hy] at hok
        | some y =>
          simp only [createPlotDispatch, hx, hy, scatterCreatePlot] at hok
          split at hok
          · split at hok
            · exact absurd hok (by simp)
            · injection hok with h
              subst h
              exact ⟨_, rfl⟩
          · injection hok with h
            subst h
            exact ⟨_, rfl⟩
    | histogram =>
      cases hx : p.x_column with
      | none => simp [createPlotDispatch, hx] at hok
      | some x =>
        simp only [createPlotDispatch, hx, Except.ok.injEq] at hok
        subst hok
        exact ⟨_, rfl⟩
    | heatmap =>
      simp only [createPlotDispatch, heatmapCreatePlot] at hok
      split at hok
      · split at hok
        · injection hok with h
          subst h
          exact ⟨[], (List.append_nil _).symm⟩
        · injection hok with h
          subst h
          exact ⟨_, rfl⟩
      · exact absurd hok (by simp)
    | boxplot =>
      cases hx : p.x_column with
      | none => simp [createPlotDispatch, hx] at hok
      | some x =>
        simp only [createPlotDispatch, hx, Except.ok.injEq] at hok
        subst hok
        exact ⟨_, rfl⟩

/-- Witness for C8: updating with a scatter strategy from a context already
holding a nonempty figure stores exactly the freshly rendered single-trace
figure. -/
theorem update_plot_fresh_figure_witness :
    (PlotContextState.updatePlot
        ⟨some Strategy.scatter, some ⟨[Trace.empty], some "old", some "ox", some "oy"⟩⟩
        dfSample "t"
        { PlotParams.default with x_column := some "carat", y_column := some "price" }).2.fig =
      some
        { traces := [{ Trace.empty with
            kind := "scattergl"
            x := dfSample.col "carat"
            y := dfSample.col "price"
            mode := some "markers"
            markerSymbol := some "circle"
            markerColor := some "red" }]
          title := some "t"
          xaxisTitle := some "carat"
          yaxisTitle := some "price" } := by
  exact (update_plot_fresh_figure Strategy.scatter dfSample "t"
    { PlotParams.default with x_column := some "carat", y_column := some "price" }).2.1
    (some ⟨[Trace.empty], some "old", some "ox", some "oy"⟩) _ (by decide)

/-- Column access by position: the list of cells at index j of each row. -/
def DF.colAt (df : DF) (j : Nat) : List Cell :=
  df.rows.map (fun r => r.getD j Cell.null)

/-- Pandas dtype test as content: a column is numeric when every cell is a
number or a null (float64 with NaNs); any string makes it an object column. -/
def isNumericCol (col : List Cell) : Bool :=
  col.all (fun c => c.isNull || c.isNum)

/-- The numeric values of a column, nulls skipped (pandas mean skips NaN). -/
def colNums (col : List Cell) : List ℚ :=
  col.filterMap (fun c => match c with | Cell.num q => some q | _ => none)

/-- Mean of a list of rationals (0 for the empty list, where pandas has NaN
and the subsequent fillna is a no-op, which the caller below checks for). -/
def listMean (l : List ℚ) : ℚ := l.sum / l.length

/-- One cell of data.fillna(data.mean(numeric_only=True)): a null in a numeric
column with a defined (non-NaN) mean becomes that column's mean of the
non-null values; everything else is untouched. -/
def fillMeanCell (df : DF) (j : Nat) (c : Cell) : Cell :=
  let col := df.colAt j
  if c.isNull && isNumericCol col && !(colNums col).isEmpty then
    Cell.num (listMean (colNums col))
  else c

/-- DataPreprocessor.handle_nulls method mean:
data.fillna(data.mean(numeric_only=True)). -/
def fillMean (df : DF) : DF :=
  { cols := df.cols
    rows := df.rows.map (fun r => r.enum.map (fun p => fillMeanCell df p.1 p.2)) }

/-- Pandas dropna: remove every row containing a null. -/
def DF.dropna (df : DF) : DF :=
  { cols := df.cols, rows := df.rows.filter (fun r => !(r.any Cell.isNull)) }

/-- Pandas fillna(value): replace every null cell by the value. -/
def DF.fillnaAll (df : DF) (v : Cell) : DF :=
  { cols := df.cols
    rows := df.rows.map (fun r => r.map (fun c => if c.isNull then v else c)) }

/-- DataPreprocessor.handle_nulls (core/preprocessing.py). -/
def handleNulls (df : DF) (method : String) (fill_value : Option Cell) :
    Except String DF :=
  if method = "mean" then Except.ok (fillMean df)
  else if method = "drop" then Except.ok df.dropna
  else if method = "fill" then
    match fill_value with
    | none => Except.error "fill_value must be provided when method is 'fill'."
    | some v => Except.ok (df.fillnaAll v)
  else
    Except.error "Invalid method for handling nulls. Choose from 'mean', 'drop', or 'fill'."

theorem getD_enum_map {α β : Type} (f : Nat × α → β) (l : List α) (j : Nat)
    (h : j < l.length) (d : β) (e : α) :
    (l.enum.map f).getD j d = f (j, l.getD j e) := by
  have h1 : j < (l.enum.map f).length := by
    simpa [List.enum_length] using h
  rw [List.getD_eq_getElem _ _ h1, List.getD_eq_getElem _ _ h]
  simp [List.getElem_map, List.getElem_enum]

/-- C5: the handle_nulls contract.  Method drop leaves no null anywhere;
method fill with a (non-null) value leaves no null and turns exactly the
previously-null cells into that value; method fill without a value fails with
the invalid-argument error; method mean returns the frame in which nulls of
numeric columns with a defined mean become that column's mean of non-null
values, and non-numeric columns are untouched. -/
theorem handle_nulls_contract (df : DF) (v : Cell) (hv : v.isNull = false) :
    (∀ d, handleNulls df "drop" none = Except.ok d →
      ∀ r ∈ d.rows, ∀ c ∈ r, c.isNull = false) ∧
    (∀ d, handleNulls df "fill" (some v) = Except.ok d →
      d.rows = df.rows.map (fun r => r.map (fun c => if c.isNull then v else c)) ∧
      (∀ r ∈ d.rows, ∀ c ∈ r, c.isNull = false)) ∧
    (handleNulls df "fill" none =
      Except.error "fill_value must be provided when method is 'fill'.") ∧
    (∀ fv, handleNulls df "mean" fv = Except.ok (fillMean df)) ∧
    (∀ j, (∀ r ∈ df.rows, j < r.length) →
      (isNumericCol (df.colAt j) = false → (fillMean df).colAt j = df.colAt j) ∧
      (isNumericCol (df.colAt j) = true → colNums (df.colAt j) ≠ [] →
        (fillMean df).colAt j = (df.colAt j).map
          (fun c => if c.isNull then Cell.num (listMean (colNums (df.colAt j))) else c))) := by
  refine ⟨?_, ?_, ?_, ?_, ?_⟩
  · intro d hd r hr c hc
    have hd2 : d = df.dropna := by
      simp only [handleNulls] at hd
      simp at hd
      exact hd.symm
    subst hd2
    simp only [DF.dropna] at hr
    have := List.of_mem_filter hr
    simp only [Bool.not_eq_true', List.any_eq_false] at this
    simpa using this c hc
  · intro d hd
    have hd2 : d = df.fillnaAll v := by
      simp only [handleNulls] at hd
      simp at hd
      exact hd.symm
    subst hd2
    refine ⟨rfl, ?_⟩
    intro r hr c hc
    simp only [DF.fillnaAll] at hr
    obtain ⟨r0, _, hr0⟩ := List.mem_map.1 hr
    subst hr0
    obtain ⟨c0, _, hc0⟩ := List.mem_map.1 hc
    subst hc0
    by_cases h0 : c0.isNull = true
    · simpa [h0] using hv
    · simp only [Bool.not_eq_true] at h0
      simp [h0]
  · simp [handleNulls]
  · intro fv
    simp [handleNulls]
  · intro j hj
    have hcol : (fillMean df).colAt j = (df.colAt j).map (fillMeanCell df j) := by
      simp only [fillMean, DF.colAt, List.map_map]
      refine List.map_congr_left ?_
      intro r hr
      simp only [Function.comp_apply]
      exact getD_enum_map (fun p => fillMeanCell df p.1 p.2) r j (hj r hr) Cell.null Cell.null
    constructor
    · intro hnn
      rw [hcol]
      have : ∀ c ∈ df.colAt j, fillMeanCell df j c = c := by
        intro c _
        simp [fillMeanCell, hnn]
      rw [List.map_congr_left this]
      simp
    · intro hnum hne
      rw [hcol]
      refine List.map_congr_left ?_
      intro c _
      simp only [fillMeanCell, hnum]
      have hne2 : (colNums (df.colAt j)).isEmpty = false := by
        simpa [List.isEmpty_iff] using hne
      by_cases h0 : c.isNull = true
      · simp [h0, hne2]
      · simp only [Bool.not_eq_true] at h0
        simp [h0]

/-- A small dataset with nulls in a numeric and a string column. -/
def dfNulls : DF :=
  { cols := ["Age", "City"]
    rows := [[Cell.num 25, Cell.str "NY"],
             [Cell.null, Cell.null],
             [Cell.num 35, Cell.str "LA"]] }

/-- Witness for C5: fill without a value errors, and on the sample frame the
other conclusions evaluate as stated. -/
theorem handle_nulls_contract_witness :
    (handleNulls dfNulls "fill" none =
      Except.error "fill_value must be provided when method is 'fill'.") ∧
    handleNulls dfNulls "drop" none =
      Except.ok ⟨["Age", "City"], [[Cell.num 25, Cell.str "NY"],
                                   [Cell.num 35, Cell.str "LA"]]⟩ ∧
    handleNulls dfNulls "fill" (some (Cell.num 0)) =
      Except.ok ⟨["Age", "City"], [[Cell.num 25, Cell.str "NY"],
                                   [Cell.num 0, Cell.num 0],
                                   [Cell.num 35, Cell.str "LA"]]⟩ ∧
    (fillMean dfNulls).colAt 1 = dfNulls.colAt 1 :=
  ⟨(handle_nulls_contract dfNulls (Cell.num 0) (by decide)).2.2.1, by decide, by decide,
   ((handle_nulls_contract dfNulls (Cell.num 0) (by decide)).2.2.2.2 1 (by decide)).1 (by decide)⟩

/-- DataPreprocessor.rename_columns: pandas rename matches mapping keys
against column names; unmatched keys are a no-op. -/
def renameDF (df : DF) (mapping : List (String × String)) : DF :=
  { cols := df.cols.map (fun c =>
      match mapping.lookup c with
      | some n => n
      | none => c)
    rows := df.rows }

/-- DataPreprocessor.drop_columns: pandas drop with errors ignore removes the
named columns (and their cells) and silently skips absent names. -/
def dropDF (df : DF) (names : List String) : DF :=
  let keep := df.cols.enum.filter (fun p => !(names.contains p.2))
  { cols := keep.map (fun p => p.2)
    rows := df.rows.map (fun r => keep.map (fun p => r.getD p.1 Cell.null)) }

/-- The state of a DataPreprocessor: the copy of the dataset captured at
construction and the current working dataset. -/
structure DataPreprocessor where
  original_data : DF
  data : DF
deriving DecidableEq, Repr

/-- DataPreprocessor.__init__: both fields start as copies of the input. -/
def DataPreprocessor.init (d : DF) : DataPreprocessor := ⟨d, d⟩

/-- DataPreprocessor.reset_data: restore the working dataset from the
captured copy. -/
def DataPreprocessor.resetData (p : DataPreprocessor) : DataPreprocessor :=
  { p with data := p.original_data }

/-- DataPreprocessor.get_data. -/
def DataPreprocessor.getData (p : DataPreprocessor) : DF := p.data

/-- The preprocessing operations a caller can run, in the order chosen. -/
inductive PreOp where
  | handleNullsOp (method : String) (fill_value : Option Cell)
  | renameColumnsOp (mapping : List (String × String))
  | dropColumnsOp (names : List String)
deriving DecidableEq, Repr

/-- Run one preprocessing operation: each one reassigns only the working
dataset; a raising handle_nulls leaves the state unchanged. -/
def DataPreprocessor.applyOp (p : DataPreprocessor) : PreOp → DataPreprocessor
  | PreOp.handleNullsOp m fv =>
    match handleNulls p.data m fv with
    | Except.ok d => { p with data := d }
    | Except.error _ => p
  | PreOp.renameColumnsOp m => { p with data := renameDF p.data m }
  | PreOp.dropColumnsOp ns => { p with data := dropDF p.data ns }

/-- Run a sequence of preprocessing operations. -/
def DataPreprocessor.applyOps (p : DataPreprocessor) : List PreOp → DataPreprocessor
  | [] => p
  | op :: ops => (p.applyOp op).applyOps ops

/-- C9: whatever sequence of handle_nulls, rename_columns and drop_columns
operations runs, the dataset captured at construction is never changed, and a
reset followed by get_data returns exactly the dataset supplied at
construction. -/
theorem preprocessor_original_immutable (d : DF) (ops : List PreOp) :
    ((DataPreprocessor.init d).applyOps ops).original_data = d ∧
    (((DataPreprocessor.init d).applyOps ops).resetData).getData = d := by
  have key : ∀ (p : DataPreprocessor) (ops : List PreOp),
      (p.applyOps ops).original_data = p.original_data := by
    intro p ops
    induction ops generalizing p with
    | nil => rfl
    | cons op ops ih =>
      have step : (p.applyOp op).original_data = p.original_data := by
        cases op with
        | handleNullsOp m fv =>
          simp only [DataPreprocessor.applyOp]
          cases handleNulls p.data m fv <;> rfl
        | renameColumnsOp m => rfl
        | dropColumnsOp ns => rfl
      calc (p.applyOps (op :: ops)).original_data
          = ((p.applyOp op).applyOps ops).original_data := rfl
        _ = (p.applyOp op).original_data := ih _
        _ = p.original_data := step
  refine ⟨key _ ops, ?_⟩
  simp [DataPreprocessor.resetData, DataPreprocessor.getData, key, DataPreprocessor.init]

/-- A float matrix as numpy holds it: each entry is a rational or NaN
(modelled as none). -/
abbrev NumMatrix := List (List (Option ℚ))

/-- Whether a cell is a string. -/
def Cell.isStr : Cell → Bool
  | Cell.str _ => true
  | _ => false

/-- Float conversion of one cell as sklearn's input check performs it:
numbers convert, nulls become NaN.  A string cell makes the whole conversion
raise instead (the caller checks for that case first, so the value produced
here for a string is irrelevant and is NaN). -/
def cellToFloat : Cell → Option ℚ
  | Cell.num q => some q
  | _ => none

/-- The float matrix of a frame. -/
def toNumMatrix (df : DF) : NumMatrix :=
  df.rows.map (fun r => r.map cellToFloat)

/-- Column j of a float matrix (missing entries of ragged rows read as NaN). -/
def matCol (m : NumMatrix) (j : Nat) : List (Option ℚ) :=
  m.map (fun r => r.getD j none)

/-- Population variance (ddof 0) of a list of rationals. -/
def listVar (l : List ℚ) : ℚ :=
  (l.map (fun x => (x - listMean l) ^ 2)).sum / l.length

/-- The per-feature offset of StandardScaler with NaN handling (np.nanmean):
the mean of the non-NaN entries, NaN when the column has none. -/
def nanMean (l : List (Option ℚ)) : Option ℚ :=
  let v := l.filterMap id
  if v.isEmpty then none else some (listMean v)

/-- The per-feature divisor of StandardScaler: the square root of the
population variance of the non-NaN entries, with zeros replaced by 1 (sklearn
handle_zeros_in_scale); NaN when the column has no non-NaN entry.  The
floating-point square root is abstracted as a function argument sq. -/
def nanScale (sq : ℚ → ℚ) (l : List (Option ℚ)) : Option ℚ :=
  let v := l.filterMap id
  if v.isEmpty then none
  else some (if sq (listVar v) = 0 then 1 else sq (listVar v))

/-- One transformed entry, (x - mean) / scale, with NaN propagation: a NaN
entry is maintained in transform. -/
def scaleEntry (mean scale : Option ℚ) : Option ℚ → Option ℚ
  | none => none
  | some x =>
    match mean, scale with
    | some mu, some s => some ((x - mu) / s)
    | _, _ => none

/-- StandardScaler.fit_transform on a float matrix: every entry is centered by
its column's nan-mean and divided by its column's scale; NaN entries are
disregarded in fit and maintained in transform. -/
def standardScaler (sq : ℚ → ℚ) (m : NumMatrix) : NumMatrix :=
  m.map (fun r => r.enum.map
    (fun p => scaleEntry (nanMean (matCol m p.1)) (nanScale sq (matCol m p.1)) p.2))

/-- DimensionalityReduction.preprocess_data (core/dim_reduction.py):
StandardScaler().fit_transform(self.selected_data).  Sklearn's input check
raises the conversion error on string cells; NaN cells are accepted
(disregarded in fit, maintained in transform) — there is no one-hot encoding
step. -/
def preprocessData (sq : ℚ → ℚ) (df : DF) : Except String NumMatrix :=
  if df.rows.all (fun r => r.all (fun c => !c.isStr)) then
    Except.ok (standardScaler sq (toNumMatrix df))
  else Except.error "could not convert string to float"

/-- DimensionalityReduction.postprocess_results: wrap the reduced matrix as a
frame with synthetic column names Component_1..Component_n (NaN entries become
null cells). -/
def postprocessResults (n_components : Nat) (reduced : NumMatrix) : DF :=
  { cols := (List.range n_components).map (fun i => "Component_" ++ toString (i + 1))
    rows := reduced.map (fun r => r.map (fun o =>
      match o with
      | some q => Cell.num q
      | none => Cell.null)) }

/-- DimensionalityReduction.run, the template method: preprocess (scale), then
apply the reduction, then postprocess.  The stage-2 reduction (sklearn
PCA.fit_transform or umap UMAP.fit_transform) is a library call, abstracted as
the function argument reduce; the theorems assume only its documented shape
contract (one output row per input sample). -/
def DimensionalityReduction.run (sq : ℚ → ℚ) (reduce : NumMatrix → NumMatrix)
    (selected : DF) (n_components : Nat) : Except String DF :=
  match preprocessData sq selected with
  | Except.error e => Except.error e
  | Except.ok scaled => Except.ok (postprocessResults n_components (reduce scaled))

theorem sum_map_center_div (l : List ℚ) (a c : ℚ) :
    (l.map (fun x => (x - a) / c)).sum = (l.sum - l.length * a) / c := by
  induction l with
  | nil => simp
  | cons x xs ih =>
    simp only [List.map_cons, List.sum_cons, ih, List.length_cons]
    rw [div_add_div_same]
    congr 1
    push_cast
    ring

theorem listMean_center_div (l : List ℚ) (c : ℚ) :
    listMean (l.map (fun x => (x - listMean l) / c)) = 0 := by
  rcases eq_or_ne l.length 0 with h | h
  · have hl : l = [] := List.length_eq_zero.1 h
    subst hl
    simp [listMean]
  · simp only [listMean, sum_map_center_div, List.length_map]
    have hl : (l.length : ℚ) ≠ 0 := Nat.cast_ne_zero.2 h
    have h2 : l.sum - (l.length : ℚ) * (l.sum / l.length) = 0 := by
      rw [mul_comm, div_mul_cancel₀ _ hl, sub_self]
    rw [h2, zero_div, zero_div]

theorem standardScaler_col (sq : ℚ → ℚ) (m : NumMatrix) (j : Nat)
    (hj : ∀ r ∈ m, j < r.length) :
    matCol (standardScaler sq m) j =
      (matCol m j).map
        (scaleEntry (nanMean (matCol m j)) (nanScale sq (matCol m j))) := by
  simp only [standardScaler, matCol, List.map_map]
  refine List.map_congr_left ?_
  intro r hr
  simp only [Function.comp_apply]
  exact getD_enum_map _ r j (hj r hr) none none

theorem filterMap_map_scaleEntry (l : List (Option ℚ)) (mu s : ℚ) :
    (l.map (scaleEntry (some mu) (some s))).filterMap id =
      (l.filterMap id).map (fun x => (x - mu) / s) := by
  induction l with
  | nil => rfl
  | cons o t ih => cases o <;> simp [scaleEntry, ih]

/-- The nan-mean of any column scaled by standardScaler is zero, except for an
all-NaN column, whose nan-mean stays NaN. -/
theorem nanMean_standardScaler_col (sq : ℚ → ℚ) (m : NumMatrix) (j : Nat)
    (hj : ∀ r ∈ m, j < r.length) :
    nanMean (matCol (standardScaler sq m) j) = some 0 ∨
    nanMean (matCol (standardScaler sq m) j) = none := by
  rw [standardScaler_col sq m j hj]
  rcases hv : (matCol m j).filterMap id with _ | ⟨x, v⟩
  · right
    have hall : ∀ o ∈ matCol m j, o = none := by
      intro o ho
      simpa using List.filterMap_eq_nil_iff.1 hv o ho
    have hmapped : ∀ b ∈ (matCol m j).map
        (scaleEntry (nanMean (matCol m j)) (nanScale sq (matCol m j))), b = none := by
      intro b hb
      obtain ⟨o, ho, hob⟩ := List.mem_map.1 hb
      rw [hall o ho] at hob
      simpa [scaleEntry] using hob.symm
    simp only [nanMean]
    rw [List.filterMap_eq_nil_iff.2 (fun b hb => by simpa using hmapped b hb)]
    rfl
  · left
    have hmean : nanMean (matCol m j) = some (listMean (x :: v)) := by
      simp [nanMean, hv]
    have hscale : nanScale sq (matCol m j) =
        some (if sq (listVar (x :: v)) = 0 then 1 else sq (listVar (x :: v))) := by
      simp [nanScale, hv]
    have hzero := listMean_center_div (x :: v)
      (if sq (listVar (x :: v)) = 0 then 1 else sq (listVar (x :: v)))
    rw [hmean, hscale]
    simp only [nanMean, filterMap_map_scaleEntry, hv]
    simpa using hzero

/-- C3: for every reduction method whose library call returns one output row
per input row (the documented contract of both PCA.fit_transform and
UMAP.fit_transform), run on a valid (all-numeric) selection returns a table
whose columns are named Component_1..Component_n with exactly n_components of
them, and whose row count equals the input row count. -/
theorem run_output_shape (sq : ℚ → ℚ) (reduce : NumMatrix → NumMatrix)
    (selected : DF) (n_components : Nat)
    (hreduce : ∀ m : NumMatrix, (reduce m).length = m.length)
    (hnum : selected.rows.all (fun r => r.all Cell.isNum) = true) :
    ∃ result : DF,
      DimensionalityReduction.run sq reduce selected n_components = Except.ok result ∧
      result.cols = (List.range n_components).map
        (fun i => "Component_" ++ toString (i + 1)) ∧
      result.cols.length = n_components ∧
      result.rows.length = selected.rows.length := by
  have hnostr : selected.rows.all (fun r => r.all (fun c => !c.isStr)) = true := by
    rw [List.all_eq_true]
    intro r hr
    rw [List.all_eq_true]
    intro c hc
    have h1 := (List.all_eq_true.1 hnum) r hr
    have h2 := (List.all_eq_true.1 h1) c hc
    cases c with
    | num q => rfl
    | null => simp [Cell.isNum] at h2
    | str t => simp [Cell.isNum] at h2
  refine ⟨postprocessResults n_components
    (reduce (standardScaler sq (toNumMatrix selected))), ?_, rfl, ?_, ?_⟩
  · simp [DimensionalityReduction.run, preprocessData, hnostr]
  · simp [postprocessResults]
  · simp [postprocessResults, hreduce, standardScaler, toNumMatrix]

/-- A small all-numeric dataset. -/
def dfNumeric : DF :=
  { cols := ["a", "b"]
    rows := [[Cell.num 1, Cell.num 2], [Cell.num 3, Cell.num 4]] }

/-- Witness for C3 with a shape-contract-satisfying stage-2 reduction. -/
theorem run_output_shape_witness :
    ∃ result : DF,
      DimensionalityReduction.run (fun q => q) (fun m => m.map (fun _ => [some 0, some 0]))
          dfNumeric 2 = Except.ok result ∧
      result.cols = (List.range 2).map (fun i => "Component_" ++ toString (i + 1)) ∧
      result.cols.length = 2 ∧
      result.rows.length = dfNumeric.rows.length :=
  run_output_shape (fun q => q) (fun m => m.map (fun _ => [some 0, some 0])) dfNumeric 2
    (fun m => by simp) (by decide)

/-- C4 counterexample: on a dataset whose selection contains a categorical
(string) column, the standardize stage raises instead of one-hot encoding the
column, so categorical input columns are not accepted. -/
theorem standardize_rejects_categorical :
    preprocessData (fun q => q) dfSample =
      Except.error "could not convert string to float" := by
  decide

/-- C4 amended: the standardize stage performs no one-hot encoding.  A
categorical (string) cell among the selected columns makes it fail with the
conversion error rather than contribute encoded features; a selection without
string cells is scaled directly — NaN cells are accepted (disregarded in fit,
maintained in transform) and every scaled column is centered so that the mean
of its non-NaN entries is zero (NaN for an all-NaN column). -/
theorem standardize_no_one_hot (sq : ℚ → ℚ) (df : DF) :
    ((∃ r ∈ df.rows, ∃ c ∈ r, c.isStr = true) →
      preprocessData sq df = Except.error "could not convert string to float") ∧
    (df.rows.all (fun r => r.all (fun c => !c.isStr)) = true →
      preprocessData sq df = Except.ok (standardScaler sq (toNumMatrix df)) ∧
      (standardScaler sq (toNumMatrix df)).length = df.rows.length ∧
      (∀ j, (∀ r ∈ df.rows, j < r.length) →
        nanMean (matCol (standardScaler sq (toNumMatrix df)) j) = some 0 ∨
        nanMean (matCol (standardScaler sq (toNumMatrix df)) j) = none)) := by
  constructor
  · intro hex
    have hall : df.rows.all (fun r => r.all (fun c => !c.isStr)) = false := by
      obtain ⟨r, hr, c, hc, hstr⟩ := hex
      rw [Bool.eq_false_iff]
      intro htrue
      have h1 := (List.all_eq_true.1 htrue) r hr
      have h2 := (List.all_eq_true.1 h1) c hc
      rw [hstr] at h2
      simp at h2
    simp [preprocessData, hall]
  · intro hall
    refine ⟨by simp [preprocessData, hall], by simp [standardScaler, toNumMatrix], ?_⟩
    intro j hj
    apply nanMean_standardScaler_col
    intro r hr
    obtain ⟨r0, hr0, hrr⟩ := List.mem_map.1 hr
    subst hrr
    simpa using hj r0 hr0

/-- A string-free dataset with a null cell. -/
def dfNumNull : DF :=
  { cols := ["a", "b"]
    rows := [[Cell.num 1, Cell.num 2], [Cell.null, Cell.num 4]] }

/-- Witness for C4's amended statement: the stage errors on the sample with a
string column, succeeds on a string-free sample containing a null (NaN), and
centers that sample's first scaled column. -/
theorem standardize_no_one_hot_witness :
    preprocessData (fun q => q) dfSample =
      Except.error "could not convert string to float" ∧
    preprocessData (fun q => q) dfNumNull =
      Except.ok (standardScaler (fun q => q) (toNumMatrix dfNumNull)) ∧
    (nanMean (matCol (standardScaler (fun q => q) (toNumMatrix dfNumNull)) 0) = some 0 ∨
     nanMean (matCol (standardScaler (fun q => q) (toNumMatrix dfNumNull)) 0) = none) :=
  ⟨(standardize_no_one_hot (fun q => q) dfSample).1 (by decide),
   ((standardize_no_one_hot (fun q => q) dfNumNull).2 (by decide)).1,
   ((standardize_no_one_hot (fun q => q) dfNumNull).2 (by decide)).2.2 0 (by decide)⟩

/-- A configured stage-2 reducer with its parameters bound. -/
inductive Reducer where
  | pca (n_components : Nat)
  | umap (n_components n_neighbors : Nat) (min_dist : ℚ)
deriving DecidableEq, Repr

/-- Modelled from the spec: DimReductionFactory.get_reducer.  The module
core/dim_reduction.py of the flat src/core variant, which defines
DimReductionFactory, is missing from the sources — only its caller
DataAnalysisFacade.create_plot (core/facade.py) is present.  Per the spec the
factory is a pure dispatch from the method name to a constructed
ProjectionPipeline variant with its stage-2 parameters bound, and an
unrecognized method name fails with the Unknown strategy error. -/
def DimReductionFactory.getReducer (method : String)
    (n_components n_neighbors : Nat) (min_dist : ℚ) : Except String Reducer :=
  if method = "PCA" then Except.ok (Reducer.pca n_components)
  else if method = "UMAP" then
    Except.ok (Reducer.umap n_components n_neighbors min_dist)
  else Except.error ("Unknown strategy: " ++ method)

/-- C7: the reduction factory dispatches PCA and UMAP to the corresponding
pipeline variant with the given parameters bound, and fails with the Unknown
strategy error on every other method name. -/
theorem reducer_factory_dispatch (n_components n_neighbors : Nat) (min_dist : ℚ) :
    (DimReductionFactory.getReducer "PCA" n_components n_neighbors min_dist =
      Except.ok (Reducer.pca n_components)) ∧
    (DimReductionFactory.getReducer "UMAP" n_components n_neighbors min_dist =
      Except.ok (Reducer.umap n_components n_neighbors min_dist)) ∧
    (∀ method, method ≠ "PCA" → method ≠ "UMAP" →
      DimReductionFactory.getReducer method n_components n_neighbors min_dist =
        Except.error ("Unknown strategy: " ++ method)) := by
  refine ⟨by simp [DimReductionFactory.getReducer],
          by simp [DimReductionFactory.getReducer], ?_⟩
  intro method h1 h2
  simp [DimReductionFactory.getReducer, h1, h2]

/-- Witness for C7 at an unrecognized method name. -/
theorem reducer_factory_dispatch_witness :
    DimReductionFactory.getReducer "tSNE" 2 15 (1 / 10) =
      Except.error "Unknown strategy: tSNE" :=
  (reducer_factory_dispatch 2 15 (1 / 10)).2.2 "tSNE" (by decide) (by decide)
